import Mathlib

/-!
Shallow embedding of the Cloudflare DNS-record resource handler
(`resource_cloudflare_record.go`): name composition/decomposition helpers,
the forward/reverse field mappings, and the CRUD and import entry points.
Remote API calls and the Terraform `ResourceData` accessors are modelled as
explicit inputs; each operation additionally records the sequence of
validation and remote calls it performs.
-/

namespace CloudflareRecord

/-- The provider's "not found" error text (`recordNotFoundMessage`). -/
def recordNotFoundMessage : String := "Invalid dns record identifier"

/-- Go `strings.TrimSuffix s suffix`: if `suffix` is a suffix of `s`, drop
exactly `suffix.length` characters from the end of `s`; otherwise return `s`
unchanged. -/
def trimSuffix (s suffix : String) : String :=
  if suffix.data.isSuffixOf s.data then
    String.mk (s.data.take (s.data.length - suffix.data.length))
  else s

/-- Substring search on character lists, the semantics of Go
`strings.Contains`: `containsChars sub l = true` iff `sub` occurs consecutively
inside `l`. -/
def containsChars (sub : List Char) : List Char → Bool
  | [] => sub.isEmpty
  | a :: t => sub.isPrefixOf (a :: t) || containsChars sub t

/-- Go `strings.Contains s sub`. -/
def strContains (s sub : String) : Bool := containsChars sub.data s.data

/-- Splitting a character list at every occurrence of `sep`, the semantics
of Go `strings.Split` for a one-character separator: the empty list yields
one empty segment, and each separator occurrence starts a new segment. -/
def splitOnChar (sep : Char) : List Char → List (List Char)
  | [] => [[]]
  | ch :: t =>
    let r := splitOnChar sep t
    if ch = sep then [] :: r
    else
      match r with
      | [] => [[ch]]
      | h :: t2 => (ch :: h) :: t2

/-- Go `strings.Split s sep` for the one-character separator `sep`. -/
def goSplit (s : String) (sep : Char) : List String :=
  (splitOnChar sep s.data).map String.mk

/-- `subdomainName` from the source: strips the domain suffix, then one
trailing "." separator. -/
def subdomainName (fullName domain : String) : String :=
  trimSuffix (trimSuffix fullName domain) "."

/-- `recordName` from the source: the fully-qualified name is
`subdomain ++ "." ++ domain` when the subdomain is non-empty, else the
domain alone. -/
def recordName (subdomain domain : String) : String :=
  if subdomain = "" then domain else subdomain ++ "." ++ domain

lemma trimSuffix_append (a b : String) : trimSuffix (a ++ b) b = a := by
  have hsuf : b.data.isSuffixOf (a ++ b).data = true := by
    rw [List.isSuffixOf_iff_suffix, String.data_append]
    exact List.suffix_append a.data b.data
  unfold trimSuffix
  rw [if_pos hsuf, String.data_append, List.length_append,
    List.take_left' (show a.data.length = a.data.length + b.data.length - b.data.length by omega)]

/-- The provider's record representation (`cloudflare.DNSRecord`), restricted
to the fields the handler reads or writes.  A Go struct literal leaves
omitted fields at their zero values, mirrored here by the defaults. -/
structure DNSRecord where
  id : String := ""
  type : String := ""
  name : String := ""
  content : String := ""
  ttl : Int := 0
  priority : Int := 0
  proxied : Bool := false
  zoneName : String := ""
  zoneID : String := ""
deriving DecidableEq, Repr

/-- The local Terraform state/configuration (`schema.ResourceData`) for one
record resource.  `ttl`/`priority` model the result of `d.GetOk`
(`some v` when the lookup reports the field as present); `proxied` models
`d.Get ("proxied")` and `proxiedOk` the boolean returned by
`d.GetOk ("proxied")`. -/
structure ResourceData where
  id : String := ""
  domain : String := ""
  subdomain : String := ""
  type : String := ""
  value : String := ""
  ttl : Option Int := none
  priority : Option Int := none
  proxied : Bool := false
  proxiedOk : Bool := false
  zone_id : String := ""
deriving DecidableEq, Repr

/-- One validation step or remote-API call performed by an operation. -/
inductive CallEvent where
  | validateName (type content : String)
  | validateType (type : String) (proxied : Bool)
  | zoneLookup (domain : String)
  | createCall (zoneID : String) (record : DNSRecord)
  | fetchCall (zoneID recordID : String)
  | updateCall (zoneID recordID : String) (record : DNSRecord)
  | deleteCall (zoneID recordID : String)
  | listCall (zoneID : String) (filter : DNSRecord)
deriving DecidableEq, Repr

/-- The environment an operation runs against: the remote client
(`cloudflare.API`) methods used by the handler, plus the two validation
hooks.  `validateRecordName` and `validateRecordType` are declared in
another file of the repository that is not part of the provided sources;
modelled from the spec: "record content is checked against type-specific
syntax rules" and "record type is checked against a compatibility rule with
the proxied flag", as abstract checks returning an error or success. -/
structure API where
  zoneIDByName : String → Except String String
  createDNSRecord : String → DNSRecord → Except String DNSRecord
  dnsRecord : String → String → Except String DNSRecord
  dnsRecords : String → DNSRecord → Except String (List DNSRecord)
  updateDNSRecord : String → String → DNSRecord → Except String Unit
  deleteDNSRecord : String → String → Except String Unit
  validateRecordName : String → String → Except String Unit
  validateRecordType : String → Bool → Except String Unit

/-- Result of one CRUD entry point: the local state after the call, the
returned error (or success), and the calls performed, in order. -/
structure OpResult where
  state : ResourceData
  result : Except String Unit
  trace : List CallEvent

/-- The remote record assembled by `resourceCloudFlareRecordCreate`
(lines 84-98): type, composed name, content, proxied copied from local
state, zone name set to the domain; priority and TTL copied only when
`GetOk` reports them present. -/
def buildCreateRecord (d : ResourceData) : DNSRecord :=
  let r : DNSRecord :=
    { type := d.type, name := recordName d.subdomain d.domain,
      content := d.value, proxied := d.proxied, zoneName := d.domain }
  let r := match d.priority with
    | some p => { r with priority := p }
    | none => r
  match d.ttl with
  | some t => { r with ttl := t }
  | none => r

/-- The remote record assembled by `resourceCloudFlareRecordUpdate`
(lines 173-192): id, type, composed name, content, zone name, proxied
initialised to `false`; then priority, proxied and TTL overwritten in that
order when `GetOk` reports them present. -/
def buildUpdateRecord (d : ResourceData) : DNSRecord :=
  let r : DNSRecord :=
    { id := d.id, type := d.type, name := recordName d.subdomain d.domain,
      content := d.value, zoneName := d.domain, proxied := false }
  let r := match d.priority with
    | some p => { r with priority := p }
    | none => r
  let r := if d.proxiedOk then { r with proxied := d.proxied } else r
  match d.ttl with
  | some t => { r with ttl := t }
  | none => r

/-- `resourceCloudFlareRecordRead`: resolve the zone, fetch the record by
the local identifier; an error containing `recordNotFoundMessage` clears
the identifier and succeeds; any other fetch error is returned; on success
the reverse mapping is applied to local state. -/
def resourceCloudFlareRecordRead (client : API) (d : ResourceData) : OpResult :=
  match client.zoneIDByName d.domain with
  | .error e =>
    ⟨d, .error ("Error finding zone " ++ d.domain ++ ": " ++ e), [.zoneLookup d.domain]⟩
  | .ok zoneID =>
    match client.dnsRecord zoneID d.id with
    | .error e =>
      if strContains e recordNotFoundMessage then
        ⟨{ d with id := "" }, .ok (), [.zoneLookup d.domain, .fetchCall zoneID d.id]⟩
      else
        ⟨d, .error e, [.zoneLookup d.domain, .fetchCall zoneID d.id]⟩
    | .ok record =>
      ⟨{ d with
          id := record.id, type := record.type,
          subdomain := subdomainName record.name d.domain,
          value := record.content, ttl := some record.ttl,
          priority := some record.priority,
          proxied := record.proxied, proxiedOk := record.proxied,
          zone_id := zoneID },
        .ok (), [.zoneLookup d.domain, .fetchCall zoneID d.id]⟩

/-- `resourceCloudFlareRecordCreate`: build the remote record, validate the
content against the type and the type against the proxied flag, resolve the
zone, store the zone id locally, call the remote create, reject an empty
returned identifier, store the identifier and re-read. -/
def resourceCloudFlareRecordCreate (client : API) (d : ResourceData) : OpResult :=
  let newRecord := buildCreateRecord d
  match client.validateRecordName newRecord.type newRecord.content with
  | .error e =>
    ⟨d, .error ("Error validating record name " ++ newRecord.name ++ ": " ++ e),
      [.validateName newRecord.type newRecord.content]⟩
  | .ok _ =>
    match client.validateRecordType newRecord.type newRecord.proxied with
    | .error e =>
      ⟨d, .error ("Error validating record type " ++ newRecord.type ++ ": " ++ e),
        [.validateName newRecord.type newRecord.content,
          .validateType newRecord.type newRecord.proxied]⟩
    | .ok _ =>
      match client.zoneIDByName newRecord.zoneName with
      | .error e =>
        ⟨d, .error ("Error finding zone " ++ newRecord.zoneName ++ ": " ++ e),
          [.validateName newRecord.type newRecord.content,
            .validateType newRecord.type newRecord.proxied,
            .zoneLookup newRecord.zoneName]⟩
      | .ok zoneID =>
        let d1 : ResourceData := { d with zone_id := zoneID }
        let sent : DNSRecord := { newRecord with zoneID := zoneID }
        let trace :=
          [CallEvent.validateName newRecord.type newRecord.content,
            CallEvent.validateType newRecord.type newRecord.proxied,
            CallEvent.zoneLookup newRecord.zoneName,
            CallEvent.createCall zoneID sent]
        match client.createDNSRecord zoneID sent with
        | .error e => ⟨d1, .error ("Failed to create record: " ++ e), trace⟩
        | .ok r =>
          if r.id = "" then
            ⟨d1, .error "Failed to find record in Creat response; Record was empty", trace⟩
          else
            let rd := resourceCloudFlareRecordRead client { d1 with id := r.id }
            ⟨rd.state, rd.result, trace ++ rd.trace⟩

/-- `resourceCloudFlareRecordUpdate`: build the remote record (note the
proxied default of `false` overwritten only when `GetOk` reports the field),
resolve the zone, call the remote update by identifier, re-read. -/
def resourceCloudFlareRecordUpdate (client : API) (d : ResourceData) : OpResult :=
  let updateRecord := buildUpdateRecord d
  match client.zoneIDByName updateRecord.zoneName with
  | .error e =>
    ⟨d, .error ("Error finding zone " ++ updateRecord.zoneName ++ ": " ++ e),
      [.zoneLookup updateRecord.zoneName]⟩
  | .ok zoneID =>
    let sent : DNSRecord := { updateRecord with zoneID := zoneID }
    match client.updateDNSRecord zoneID d.id sent with
    | .error e =>
      ⟨d, .error ("Failed to update CloudFlare Record: " ++ e),
        [.zoneLookup updateRecord.zoneName, .updateCall zoneID d.id sent]⟩
    | .ok _ =>
      let rd := resourceCloudFlareRecordRead client d
      ⟨rd.state, rd.result,
        [.zoneLookup updateRecord.zoneName, .updateCall zoneID d.id sent] ++ rd.trace⟩

/-- `resourceCloudFlareRecordDelete`: resolve the zone, call the remote
delete by identifier; success, or an error containing
`recordNotFoundMessage`, is reported as success; any other error is
surfaced.  Local state is never modified. -/
def resourceCloudFlareRecordDelete (client : API) (d : ResourceData) : OpResult :=
  match client.zoneIDByName d.domain with
  | .error e =>
    ⟨d, .error ("Error finding zone " ++ d.domain ++ ": " ++ e), [.zoneLookup d.domain]⟩
  | .ok zoneID =>
    match client.deleteDNSRecord zoneID d.id with
    | .ok _ => ⟨d, .ok (), [.zoneLookup d.domain, .deleteCall zoneID d.id]⟩
    | .error e =>
      if strContains e recordNotFoundMessage then
        ⟨d, .ok (), [.zoneLookup d.domain, .deleteCall zoneID d.id]⟩
      else
        ⟨d, .error ("Error deleting CloudFlare Record: " ++ e),
          [.zoneLookup d.domain, .deleteCall zoneID d.id]⟩

/-- Result of the import entry point: the seeded-and-read local state on
success, or an error, plus the calls performed. -/
structure ImportResult where
  result : Except String ResourceData
  trace : List CallEvent

/-- `importRecord`: split the external identifier on `'|'` into exactly
three tokens (subdomain, domain, type), resolve the zone, list records
matching the filter `{name := subdomain ++ "." ++ domain, type := type}`,
require exactly one match, seed the local identifier and domain, and
delegate to the read operation. -/
def importRecord (client : API) (d : ResourceData) : ImportResult :=
  match goSplit d.id '|' with
  | [subdomain, domain, recordType] =>
    match client.zoneIDByName domain with
    | .error e =>
      ⟨.error ("error finding zone " ++ domain ++ ": " ++ e), [.zoneLookup domain]⟩
    | .ok zoneID =>
      let filter : DNSRecord := { name := subdomain ++ "." ++ domain, type := recordType }
      match client.dnsRecords zoneID filter with
      | .error e =>
        ⟨.error ("error filtering DNS records: " ++ e),
          [.zoneLookup domain, .listCall zoneID filter]⟩
      | .ok records =>
        match records with
        | [record] =>
          let rd := resourceCloudFlareRecordRead client
            { d with id := record.id, domain := domain }
          match rd.result with
          | .error _ =>
            ⟨.error ("error importing record " ++ record.id),
              [.zoneLookup domain, .listCall zoneID filter] ++ rd.trace⟩
          | .ok _ =>
            ⟨.ok rd.state, [.zoneLookup domain, .listCall zoneID filter] ++ rd.trace⟩
        | _ =>
          ⟨.error ("expected 1 record, got " ++ toString records.length),
            [.zoneLookup domain, .listCall zoneID filter]⟩
  | _ => ⟨.error ("expecting subdomain|domain|type, got " ++ d.id), []⟩

/-- A remote environment in which every call succeeds, used to instantiate
theorems at concrete inputs. -/
def stubAPI : API where
  zoneIDByName := fun _ => .ok "z1"
  createDNSRecord := fun _ r => .ok { r with id := "rec1" }
  dnsRecord := fun _ _ =>
    .ok { id := "rec1", type := "A", name := "www.example.com", content := "1.2.3.4" }
  dnsRecords := fun _ _ => .ok []
  updateDNSRecord := fun _ _ _ => .ok ()
  deleteDNSRecord := fun _ _ => .ok ()
  validateRecordName := fun _ _ => .ok ()
  validateRecordType := fun _ _ => .ok ()

/-- C1: for every non-empty subdomain `s` and every domain `d`, decomposing
the composed fully-qualified name against `d` recovers `s` exactly:
`subdomainName (recordName s d) d = s`. -/
theorem subdomainName_recordName_roundtrip (s d : String) (hs : s ≠ "") :
    subdomainName (recordName s d) d = s := by
  unfold recordName subdomainName
  rw [if_neg hs, trimSuffix_append (s ++ ".") d, trimSuffix_append s "."]

/-- Witness for C1 at `s = "www"`, `d = "example.com"`. -/
theorem subdomainName_recordName_roundtrip_witness :
    "www" ≠ "" ∧ subdomainName (recordName "www" "example.com") "example.com" = "www" :=
  ⟨by decide, subdomainName_recordName_roundtrip "www" "example.com" (by decide)⟩

/-- C2: the forward mapping of the proxied flag is asymmetric between
Create and Update: the record built by Create always carries the locally
stored proxied boolean, while the record built by Update carries `false`
unless `GetOk` reports the proxied field as present in local configuration,
in which case it carries the stored value. -/
theorem proxied_create_update_asymmetry (d : ResourceData) :
    (buildCreateRecord d).proxied = d.proxied ∧
    (buildUpdateRecord d).proxied = (if d.proxiedOk then d.proxied else false) := by
  obtain ⟨i, dom, sb, ty, v, t, p, px, pk, z⟩ := d
  cases t <;> cases p <;> cases pk <;> exact ⟨rfl, rfl⟩

/-- C3: when the remote delete call fails with an error containing the
provider's "invalid identifier" text, Delete returns success; on any other
delete error, Delete returns an error and the local identifier is left
unchanged. -/
theorem delete_idempotent_on_not_found (client : API) (d : ResourceData)
    (zoneID e : String)
    (hz : client.zoneIDByName d.domain = .ok zoneID)
    (he : client.deleteDNSRecord zoneID d.id = .error e) :
    (strContains e recordNotFoundMessage = true →
      (resourceCloudFlareRecordDelete client d).result = .ok ()) ∧
    (strContains e recordNotFoundMessage = false →
      (∃ msg, (resourceCloudFlareRecordDelete client d).result = .error msg) ∧
      (resourceCloudFlareRecordDelete client d).state.id = d.id) := by
  constructor
  · intro hc
    simp [resourceCloudFlareRecordDelete, hz, he, hc]
  · intro hc
    simp [resourceCloudFlareRecordDelete, hz, he, hc]

/-- Environment for the C3 witness: delete reports the record as absent. -/
def c3Client : API :=
  { stubAPI with deleteDNSRecord := fun _ _ => .error "Invalid dns record identifier" }

/-- Witness for C3: deleting an already-absent record returns success. -/
theorem delete_idempotent_on_not_found_witness :
    (resourceCloudFlareRecordDelete c3Client
      { id := "r1", domain := "example.com" }).result = .ok () :=
  (delete_idempotent_on_not_found c3Client { id := "r1", domain := "example.com" }
    "z1" "Invalid dns record identifier" rfl rfl).1 (by decide)

/-- C4: when the remote fetch-by-identifier fails with an error containing
the provider's "invalid identifier" text, Read clears the local identifier
and returns success; on any other fetch error, Read returns that error. -/
theorem read_absent_clears_identifier (client : API) (d : ResourceData)
    (zoneID e : String)
    (hz : client.zoneIDByName d.domain = .ok zoneID)
    (he : client.dnsRecord zoneID d.id = .error e) :
    (strContains e recordNotFoundMessage = true →
      (resourceCloudFlareRecordRead client d).state.id = "" ∧
      (resourceCloudFlareRecordRead client d).result = .ok ()) ∧
    (strContains e recordNotFoundMessage = false →
      (resourceCloudFlareRecordRead client d).result = .error e) := by
  constructor
  · intro hc
    simp [resourceCloudFlareRecordRead, hz, he, hc]
  · intro hc
    simp [resourceCloudFlareRecordRead, hz, he, hc]

/-- Environment for the C4 witness: fetch reports the record as absent. -/
def c4Client : API :=
  { stubAPI with dnsRecord := fun _ _ => .error "Invalid dns record identifier" }

/-- Witness for C4: reading an absent record clears the identifier and
succeeds. -/
theorem read_absent_clears_identifier_witness :
    (resourceCloudFlareRecordRead c4Client
      { id := "r1", domain := "example.com" }).state.id = "" ∧
    (resourceCloudFlareRecordRead c4Client
      { id := "r1", domain := "example.com" }).result = .ok () :=
  (read_absent_clears_identifier c4Client { id := "r1", domain := "example.com" }
    "z1" "Invalid dns record identifier" rfl rfl).1 (by decide)

/-- C5: when the remote create call succeeds but the returned record has an
empty identifier, Create returns an error and the empty identifier is never
persisted as the local identifier. -/
theorem create_rejects_empty_identifier (client : API) (d : ResourceData)
    (zoneID : String) (r : DNSRecord)
    (hvn : client.validateRecordName (buildCreateRecord d).type
      (buildCreateRecord d).content = .ok ())
    (hvt : client.validateRecordType (buildCreateRecord d).type
      (buildCreateRecord d).proxied = .ok ())
    (hz : client.zoneIDByName (buildCreateRecord d).zoneName = .ok zoneID)
    (hc : client.createDNSRecord zoneID
      { buildCreateRecord d with zoneID := zoneID } = .ok r)
    (hr : r.id = "") :
    (∃ msg, (resourceCloudFlareRecordCreate client d).result = .error msg) ∧
    (resourceCloudFlareRecordCreate client d).state.id = d.id := by
  simp [resourceCloudFlareRecordCreate, hvn, hvt, hz, hc, hr]

/-- Environment for the C5 witness: the remote create succeeds with an
empty record. -/
def c5Client : API :=
  { stubAPI with createDNSRecord := fun _ _ => .ok {} }

/-- Local configuration used by the create witnesses. -/
def cD : ResourceData :=
  { domain := "example.com", subdomain := "www", type := "A", value := "1.2.3.4" }

/-- Witness for C5 at a concrete configuration and environment. -/
theorem create_rejects_empty_identifier_witness :
    (∃ msg, (resourceCloudFlareRecordCreate c5Client cD).result = .error msg) ∧
    (resourceCloudFlareRecordCreate c5Client cD).state.id = cD.id :=
  create_rejects_empty_identifier c5Client cD "z1" {} rfl rfl rfl rfl rfl

/-- C10: when zone resolution succeeds but the remote create call fails,
the returned local state already carries the resolved zone identifier in
`zone_id`, while the local identifier is still unset. -/
theorem create_zone_id_set_on_remote_failure (client : API) (d : ResourceData)
    (zoneID e : String)
    (hid : d.id = "")
    (hvn : client.validateRecordName (buildCreateRecord d).type
      (buildCreateRecord d).content = .ok ())
    (hvt : client.validateRecordType (buildCreateRecord d).type
      (buildCreateRecord d).proxied = .ok ())
    (hz : client.zoneIDByName (buildCreateRecord d).zoneName = .ok zoneID)
    (hc : client.createDNSRecord zoneID
      { buildCreateRecord d with zoneID := zoneID } = .error e) :
    (resourceCloudFlareRecordCreate client d).state.zone_id = zoneID ∧
    (resourceCloudFlareRecordCreate client d).state.id = "" ∧
    ∃ msg, (resourceCloudFlareRecordCreate client d).result = .error msg := by
  simp [resourceCloudFlareRecordCreate, hvn, hvt, hz, hc, hid]

/-- Environment for the C10 witness: the remote create fails. -/
def c10Client : API :=
  { stubAPI with createDNSRecord := fun _ _ => .error "remote failure" }

/-- Witness for C10 at a concrete configuration and environment. -/
theorem create_zone_id_set_on_remote_failure_witness :
    (resourceCloudFlareRecordCreate c10Client cD).state.zone_id = "z1" ∧
    (resourceCloudFlareRecordCreate c10Client cD).state.id = "" ∧
    ∃ msg, (resourceCloudFlareRecordCreate c10Client cD).result = .error msg :=
  create_zone_id_set_on_remote_failure c10Client cD "z1" "remote failure"
    rfl rfl rfl rfl rfl

lemma buildCreateRecord_zoneName (d : ResourceData) :
    (buildCreateRecord d).zoneName = d.domain := by
  obtain ⟨i, dom, sb, ty, v, t, p, px, pk, z⟩ := d
  cases t <;> cases p <;> rfl

/-- Environment for the C9 counterexample: content validation fails. -/
def c9Client : API :=
  { stubAPI with validateRecordName := fun _ _ => .error "bad content" }

/-- Configuration for the C9 counterexample. -/
def c9D : ResourceData :=
  { domain := "example.com", subdomain := "www", type := "A", value := "bad" }

/-- C9 counterexample: at this input Create performs the content validation
check, yet no zone lookup occurs anywhere in its call sequence, so zone
resolution does not precede the validation checks. -/
theorem create_zone_lookup_not_before_validation :
    (resourceCloudFlareRecordCreate c9Client c9D).trace
      = [CallEvent.validateName "A" "bad"] ∧
    ¬ ∃ dom, CallEvent.zoneLookup dom ∈
      (resourceCloudFlareRecordCreate c9Client c9D).trace := by
  have htr : (resourceCloudFlareRecordCreate c9Client c9D).trace
      = [CallEvent.validateName "A" "bad"] := rfl
  refine ⟨htr, ?_⟩
  rintro ⟨dom, h⟩
  rw [htr] at h
  simp at h

/-- C9 amended: Create performs its steps in the order build, validate
content, validate type/proxy compatibility, resolve zone, call remote
create: whenever the remote create call happens, the call sequence begins
with content validation, then type validation, then the zone lookup, then
the create call. -/
theorem create_validates_before_zone_lookup (client : API) (d : ResourceData)
    (h : ∃ z r, CallEvent.createCall z r ∈
      (resourceCloudFlareRecordCreate client d).trace) :
    ∃ zoneID rest,
      (resourceCloudFlareRecordCreate client d).trace =
        CallEvent.validateName (buildCreateRecord d).type (buildCreateRecord d).content ::
        CallEvent.validateType (buildCreateRecord d).type (buildCreateRecord d).proxied ::
        CallEvent.zoneLookup d.domain ::
        CallEvent.createCall zoneID { buildCreateRecord d with zoneID := zoneID } :: rest := by
  obtain ⟨z0, r0, hm⟩ := h
  rcases hvn : client.validateRecordName (buildCreateRecord d).type
      (buildCreateRecord d).content with e | u
  · simp [resourceCloudFlareRecordCreate, hvn] at hm
  rcases hvt : client.validateRecordType (buildCreateRecord d).type
      (buildCreateRecord d).proxied with e | u
  · simp [resourceCloudFlareRecordCreate, hvn, hvt] at hm
  rcases hz : client.zoneIDByName (buildCreateRecord d).zoneName with e | zoneID
  · simp [resourceCloudFlareRecordCreate, hvn, hvt, hz] at hm
  refine ⟨zoneID, ?_⟩
  rcases hc : client.createDNSRecord zoneID
      { buildCreateRecord d with zoneID := zoneID } with e | r
  · refine ⟨[], ?_⟩
    simp only [resourceCloudFlareRecordCreate, hvn, hvt, hz, hc]
    simp [buildCreateRecord_zoneName]
  · by_cases hr : r.id = ""
    · refine ⟨[], ?_⟩
      simp only [resourceCloudFlareRecordCreate, hvn, hvt, hz, hc]
      simp [hr, buildCreateRecord_zoneName]
    · refine ⟨(resourceCloudFlareRecordRead client
        { d with zone_id := zoneID, id := r.id }).trace, ?_⟩
      simp only [resourceCloudFlareRecordCreate, hvn, hvt, hz, hc]
      simp [hr, buildCreateRecord_zoneName]

/-- Witness for C9 amended: in an all-success environment the create call
happens and the call sequence is validation, validation, zone lookup,
create. -/
theorem create_validates_before_zone_lookup_witness :
    (∃ z r, CallEvent.createCall z r ∈
      (resourceCloudFlareRecordCreate stubAPI cD).trace) ∧
    ∃ zoneID rest,
      (resourceCloudFlareRecordCreate stubAPI cD).trace =
        CallEvent.validateName (buildCreateRecord cD).type (buildCreateRecord cD).content ::
        CallEvent.validateType (buildCreateRecord cD).type (buildCreateRecord cD).proxied ::
        CallEvent.zoneLookup cD.domain ::
        CallEvent.createCall zoneID { buildCreateRecord cD with zoneID := zoneID } :: rest :=
  ⟨⟨"z1", { buildCreateRecord cD with zoneID := "z1" }, by decide⟩,
    create_validates_before_zone_lookup stubAPI cD
      ⟨"z1", { buildCreateRecord cD with zoneID := "z1" }, by decide⟩⟩

lemma read_trace_no_listCall (client : API) (d : ResourceData)
    (z : String) (f : DNSRecord) :
    CallEvent.listCall z f ∉ (resourceCloudFlareRecordRead client d).trace := by
  rcases hz : client.zoneIDByName d.domain with e | zoneID
  · simp [resourceCloudFlareRecordRead, hz]
  · rcases hf : client.dnsRecord zoneID d.id with e | record
    · by_cases hc : strContains e recordNotFoundMessage <;>
        simp [resourceCloudFlareRecordRead, hz, hf, hc]
    · simp [resourceCloudFlareRecordRead, hz, hf]

lemma import_listCall_filter (client : API) (d : ResourceData)
    (a b c : String) (hsp : goSplit d.id '|' = [a, b, c]) :
    ∀ z f, CallEvent.listCall z f ∈ (importRecord client d).trace →
      f = { name := a ++ "." ++ b, type := c } := by
  intro z f hmem
  simp only [importRecord, hsp] at hmem
  rcases hz : client.zoneIDByName b with e | zoneID <;> simp only [hz] at hmem
  · simp at hmem
  · rcases hr : client.dnsRecords zoneID { name := a ++ "." ++ b, type := c }
        with e | recs <;> simp only [hr] at hmem
    · simp at hmem
      exact hmem.2
    · rcases recs with _ | ⟨rec, _ | ⟨rec2, rest⟩⟩
      · simp at hmem
        exact hmem.2
      · rcases hres : (resourceCloudFlareRecordRead client
            { d with id := rec.id, domain := b }).result with e | u <;>
          simp only [hres] at hmem <;> simp at hmem <;>
          rcases hmem with hmem | hmem
        · exact hmem.2
        · exact absurd hmem (read_trace_no_listCall client _ z f)
        · exact hmem.2
        · exact absurd hmem (read_trace_no_listCall client _ z f)
      · simp at hmem
        exact hmem.2

/-- C6: Import returns an error and makes no remote call when the external
identifier does not split on "|" into exactly three tokens; with exactly
three tokens, the first is used as the subdomain and the second as the
domain in the record filter, the second as the domain of the zone lookup,
and the third as the filtered record type. -/
theorem import_requires_three_tokens (client : API) (d : ResourceData) :
    ((goSplit d.id '|').length ≠ 3 →
      (∃ e, (importRecord client d).result = .error e) ∧
      (importRecord client d).trace = []) ∧
    (∀ a b c, goSplit d.id '|' = [a, b, c] →
      (∃ rest, (importRecord client d).trace = CallEvent.zoneLookup b :: rest) ∧
      ∀ z f, CallEvent.listCall z f ∈ (importRecord client d).trace →
        f.name = a ++ "." ++ b ∧ f.type = c) := by
  constructor
  · intro h
    rcases hsp : goSplit d.id '|' with _ | ⟨a, _ | ⟨b, _ | ⟨c, _ | ⟨x, r⟩⟩⟩⟩
    · simp only [importRecord, hsp]
      exact ⟨⟨_, rfl⟩, trivial⟩
    · simp only [importRecord, hsp]
      exact ⟨⟨_, rfl⟩, trivial⟩
    · simp only [importRecord, hsp]
      exact ⟨⟨_, rfl⟩, trivial⟩
    · exact absurd (by rw [hsp]; rfl) h
    · simp only [importRecord, hsp]
      exact ⟨⟨_, rfl⟩, trivial⟩
  · intro a b c hsp
    refine ⟨?_, fun z f hmem => ?_⟩
    · simp only [importRecord, hsp]
      rcases hz : client.zoneIDByName b with e | zoneID
      · exact ⟨[], by simp [hz]⟩
      · rcases hr : client.dnsRecords zoneID { name := a ++ "." ++ b, type := c }
            with e | recs
        · exact ⟨[CallEvent.listCall zoneID { name := a ++ "." ++ b, type := c }],
            by simp [hz, hr]⟩
        · rcases recs with _ | ⟨rec, _ | ⟨rec2, rest⟩⟩
          · exact ⟨[CallEvent.listCall zoneID { name := a ++ "." ++ b, type := c }],
              by simp [hz, hr]⟩
          · rcases hres : (resourceCloudFlareRecordRead client
                { d with id := rec.id, domain := b }).result with e | u
            · exact ⟨CallEvent.listCall zoneID { name := a ++ "." ++ b, type := c } ::
                (resourceCloudFlareRecordRead client
                  { d with id := rec.id, domain := b }).trace,
                by simp [hz, hr, hres]⟩
            · exact ⟨CallEvent.listCall zoneID { name := a ++ "." ++ b, type := c } ::
                (resourceCloudFlareRecordRead client
                  { d with id := rec.id, domain := b }).trace,
                by simp [hz, hr, hres]⟩
          · exact ⟨[CallEvent.listCall zoneID { name := a ++ "." ++ b, type := c }],
              by simp [hz, hr]⟩
    · have hf := import_listCall_filter client d a b c hsp z f hmem
      subst hf
      exact ⟨rfl, rfl⟩

/-- Witness for C6: a two-token identifier is rejected with no remote call,
and with a three-token identifier the zone lookup uses the middle token. -/
theorem import_requires_three_tokens_witness :
    ((∃ e, (importRecord stubAPI { id := "a|b" }).result = .error e) ∧
      (importRecord stubAPI { id := "a|b" }).trace = []) ∧
    ((∃ rest, (importRecord stubAPI { id := "www|example.com|A" }).trace
        = CallEvent.zoneLookup "example.com" :: rest) ∧
      ∀ z f, CallEvent.listCall z f ∈
          (importRecord stubAPI { id := "www|example.com|A" }).trace →
        f.name = "www" ++ "." ++ "example.com" ∧ f.type = "A") :=
  ⟨(import_requires_three_tokens stubAPI { id := "a|b" }).1 (by decide),
    (import_requires_three_tokens stubAPI { id := "www|example.com|A" }).2
      "www" "example.com" "A" (by decide)⟩

/-- C7: when the filtered remote lookup succeeds, Import returns an error
unless exactly one record matches; on a unique match it seeds the local
identifier with the matched record's id and the local domain field with the
parsed domain, and delegates to the read operation for the final outcome. -/
theorem import_unique_match (client : API) (d : ResourceData)
    (a b c zoneID : String) (recs : List DNSRecord)
    (hsp : goSplit d.id '|' = [a, b, c])
    (hz : client.zoneIDByName b = .ok zoneID)
    (hr : client.dnsRecords zoneID { name := a ++ "." ++ b, type := c } = .ok recs) :
    (recs.length ≠ 1 → ∃ e, (importRecord client d).result = .error e) ∧
    (∀ rec, recs = [rec] →
      (importRecord client d).result =
        match (resourceCloudFlareRecordRead client
            { d with id := rec.id, domain := b }).result with
        | .ok _ => .ok (resourceCloudFlareRecordRead client
            { d with id := rec.id, domain := b }).state
        | .error _ => .error ("error importing record " ++ rec.id)) := by
  constructor
  · intro hlen
    rcases recs with _ | ⟨rec, _ | ⟨rec2, rest⟩⟩
    · simp only [importRecord, hsp, hz, hr]
      exact ⟨_, rfl⟩
    · exact absurd rfl hlen
    · simp only [importRecord, hsp, hz, hr]
      exact ⟨_, rfl⟩
  · intro rec hrec
    subst hrec
    simp only [importRecord, hsp, hz, hr]
    rcases hres : (resourceCloudFlareRecordRead client
        { d with id := rec.id, domain := b }).result with e | u <;>
      simp [hres]

/-- Environment for the C7 witness: the filtered lookup returns no match. -/
def c7D : ResourceData := { id := "www|example.com|A" }

/-- Witness for C7: zero matches make the import fail. -/
theorem import_unique_match_witness :
    ∃ e, (importRecord stubAPI c7D).result = .error e :=
  (import_unique_match stubAPI c7D "www" "example.com" "A" "z1" []
    (by decide) rfl rfl).1 (by decide)

/-- Configuration for the C8 counterexample: an import identifier with an
empty subdomain token. -/
def c8D : ResourceData := { id := "|example.com|A" }

/-- C8 counterexample: at subdomain `""` and domain `"example.com"` the
remote record filter is built with name `".example.com"`, while the
data-model composition `recordName` gives `"example.com"`, so the filter
name does not equal the composed fully-qualified name. -/
theorem import_filter_name_not_composed :
    CallEvent.listCall "z1" { name := ".example.com", type := "A" }
      ∈ (importRecord stubAPI c8D).trace ∧
    recordName "" "example.com" = "example.com" ∧
    (".example.com" : String) ≠ "example.com" := by
  refine ⟨?_, by decide, by decide⟩
  decide

/-- C8 amended: the name used in the remote record filter is always
`subdomain ++ "." ++ domain`; this equals the composed fully-qualified name
`recordName subdomain domain` whenever the subdomain token is non-empty,
but for an empty subdomain it is `"." ++ domain` rather than the domain
alone. -/
theorem import_filter_name_joins_tokens (client : API) (d : ResourceData)
    (a b c z : String) (f : DNSRecord)
    (hsp : goSplit d.id '|' = [a, b, c])
    (hmem : CallEvent.listCall z f ∈ (importRecord client d).trace) :
    f.name = a ++ "." ++ b ∧ (a ≠ "" → f.name = recordName a b) := by
  have hf := import_listCall_filter client d a b c hsp z f hmem
  subst hf
  refine ⟨rfl, fun ha => ?_⟩
  unfold recordName
  rw [if_neg ha]

/-- Witness for C8 amended: at subdomain token `"www"` the filter name is
the composed name `"www.example.com"`. -/
theorem import_filter_name_joins_tokens_witness :
    CallEvent.listCall "z1" { name := "www.example.com", type := "A" }
      ∈ (importRecord stubAPI c7D).trace ∧
    ({ name := "www.example.com", type := "A" : DNSRecord }.name
        = "www" ++ "." ++ "example.com" ∧
      ("www" ≠ "" →
        ({ name := "www.example.com", type := "A" : DNSRecord }.name
          = recordName "www" "example.com"))) :=
  ⟨by decide,
    import_filter_name_joins_tokens stubAPI c7D "www" "example.com" "A" "z1"
      { name := "www.example.com", type := "A" } (by decide) (by decide)⟩

end CloudflareRecord
